import Mathlib

/-!
Verification of the sandboxed submission & grading engine of
packages/python-skill-builder/app.py.

The embedding models the AST validator (validate_source), the restricted
module loader (restricted_import), the execution engine
(run_user_and_tests) and the result capturer (capture_execution_results).
Execution of untrusted code is modelled by an oracle (ExecBehavior)
describing what the two exec steps and the grade call would do; the
engine's control flow, normalization and capture are embedded faithfully
from the source.
-/

set_option maxRecDepth 4000

deriving instance DecidableEq for Except

namespace PkgBuilder

/-- Python str.startswith, as character-list prefix testing. -/
def strStartsWith (s pre : String) : Bool := pre.data.isPrefixOf s.data

/-- Python slicing s[:k], as a character-list take. -/
def pySlice (s : String) (k : Nat) : String := ⟨s.data.take k⟩

/-- Construct categories of the host AST node kinds that the validator
distinguishes (isinstance checks in validate_source). -/
inductive NodeCat where
  | catGlobal
  | catNonlocal
  | catWith
  | catAsyncWith
  | catLambda
  | catImport
  | catImportFrom
  | catOther
deriving DecidableEq, Fintype

/-- A node of the walked tree, as validate_source inspects it:
only the node kind and, for import nodes, the module / alias names matter. -/
inductive PyNode where
  | globalStmt
  | nonlocalStmt
  | withStmt
  | asyncWithStmt
  | lambdaExpr
  | importStmt (names : List String)
  | importFromStmt (module : Option String) (names : List String)
  | otherNode (tag : String)
deriving DecidableEq

def nodeCat : PyNode → NodeCat
  | .globalStmt => .catGlobal
  | .nonlocalStmt => .catNonlocal
  | .withStmt => .catWith
  | .asyncWithStmt => .catAsyncWith
  | .lambdaExpr => .catLambda
  | .importStmt _ => .catImport
  | .importFromStmt _ _ => .catImportFrom
  | .otherNode _ => .catOther

/-- The validation policy: a disallowed-construct set and an import
allow-list table (module name, permitted symbol subset or wildcard). -/
structure ValidationPolicy where
  disallowed : List NodeCat
  allowedImports : List (String × Option (List String))
deriving DecidableEq

/-- Dictionary lookup in an allow-list table:
none means the module is not a key of the table,
some none means the module is mapped to the wildcard (all symbols),
some (some l) means only the symbols in l are permitted. -/
def lookupImport (tbl : List (String × Option (List String))) (m : String) :
    Option (Option (List String)) :=
  (tbl.find? (fun e => e.1 == m)).map Prod.snd

/-- Validation errors raised by validate_source (each one is a ValueError
in the source, distinguished here by its message shape). -/
inductive VError where
  | disallowedFeature (c : NodeCat)
  | importNotAllowed (m : Option String)
  | symbolNotAllowed (sym : String) (m : String)
deriving DecidableEq

/-- The per-alias loop of the ast.Import branch: every imported module
must be a key of the allow-list table. -/
def checkImportNames (p : ValidationPolicy) : List String → Except VError Unit
  | [] => .ok ()
  | m :: rest =>
    if (lookupImport p.allowedImports m).isSome then checkImportNames p rest
    else .error (.importNotAllowed (some m))

/-- The per-alias loop of the ast.ImportFrom branch when the module has a
restricted symbol subset. -/
def checkSymbols (m : String) (allowedNames : List String) :
    List String → Except VError Unit
  | [] => .ok ()
  | s :: rest =>
    if s ∈ allowedNames then checkSymbols m allowedNames rest
    else .error (.symbolNotAllowed s m)

/-- The import checks of validate_source on one node (lines 78-94 of
app.py); non-import nodes pass. -/
def checkImports (p : ValidationPolicy) : PyNode → Except VError Unit
  | .importStmt names => checkImportNames p names
  | .importFromStmt mo names =>
    match mo with
    | none => .error (.importNotAllowed none)
    | some m =>
      match lookupImport p.allowedImports m with
      | none => .error (.importNotAllowed (some m))
      | some none => .ok ()
      | some (some allowedNames) => checkSymbols m allowedNames names
  | _ => .ok ()

/-- The whole per-node body of the walk loop: the disallowed-node
isinstance check comes first, then the import checks. -/
def checkNode (p : ValidationPolicy) (n : PyNode) : Except VError Unit :=
  if nodeCat n ∈ p.disallowed then .error (.disallowedFeature (nodeCat n))
  else checkImports p n

/-- validate_source, over the walked node list: the loop raises at the
first offending node and accepts otherwise. -/
def validate_source (p : ValidationPolicy) : List PyNode → Except VError Unit
  | [] => .ok ()
  | n :: rest =>
    match checkNode p n with
    | .error e => .error e
    | .ok _ => validate_source p rest

/-- DISALLOWED_NODES of app.py: (ast.Global, ast.Nonlocal, ast.With,
ast.AsyncWith); Try, Raise, Attribute and Lambda were removed. -/
def DISALLOWED_NODES : List NodeCat :=
  [.catGlobal, .catNonlocal, .catWith, .catAsyncWith]

/-- ALLOWED_IMPORTS of app.py. -/
def ALLOWED_IMPORTS : List (String × Option (List String)) :=
  [("functools", some ["wraps"]),
   ("time", some ["sleep", "time", "perf_counter"]),
   ("numpy", none)]

/-- The concrete policy the application runs with. -/
def appPolicy : ValidationPolicy := ⟨DISALLOWED_NODES, ALLOWED_IMPORTS⟩

/-- restricted_import (app.py lines 118-121): permit when the module name
is a key of ALLOWED_IMPORTS, or when the fromlist is nonempty and some
entry of it is a key of ALLOWED_IMPORTS; otherwise raise ImportError. -/
def restricted_import (tbl : List (String × Option (List String)))
    (nm : String) (fromlist : List String) : Bool :=
  (lookupImport tbl nm).isSome ||
    (!fromlist.isEmpty && fromlist.any (fun f => (lookupImport tbl f).isSome))

/-- Python int() truncation toward zero on a rational value. -/
def pyTrunc (q : Rat) : Int :=
  Int.sign q.num * ((q.num.natAbs / q.den : Nat) : Int)

/-- The mapping returned by the harness's grade entrypoint, keeping only
the entries the engine reads (absent key = none). -/
structure GradeReturn where
  score : Option Rat
  max_score : Option Rat
  feedback : Option String
deriving DecidableEq

/-- One binding of the post-execution submission scope, with the facts
capture_execution_results inspects about the bound object: callability,
being a type object, the runtime type name, the string form (none when
str(obj) raises) and the attribute table, in dir(obj) order. Each
attribute entry is its name paired with some callability flag when the
attribute access succeeds, or none when the access raises: the getattr
of app.py line 212 sits outside any try, so such a raise propagates out
of capture. -/
structure Binding where
  bname : String
  isCallable : Bool
  isTypeObj : Bool
  typeName : String
  strRep : Option String
  attrs : List (String × Option Bool)
deriving DecidableEq

structure VarRecord where
  vname : String
  vtype : String
  value : String
deriving DecidableEq

structure FunRecord where
  fname : String
deriving DecidableEq

structure ClassRecord where
  cname : String
  methods : List String
deriving DecidableEq

/-- The capture artifact; the vars field models the "variables" key of
the results dictionary. -/
structure CapturedArtifact where
  functions : List FunRecord
  classes : List ClassRecord
  vars : List VarRecord
  user_code : String
deriving DecidableEq

/-- The value stored for a variable record (app.py line 223 and the
except branch of lines 225-230): the full string form when shorter than
100 characters, else the first 97 characters and an ellipsis; the fixed
marker when producing the string form raises. -/
def varValue (rep : Option String) : String :=
  match rep with
  | some s => if s.length < 100 then s else pySlice s 97 ++ "..."
  | none => "<unable to serialize>"

/-- Public callable attributes of a class (app.py lines 210-214):
attributes whose name starts with an underscore are skipped before any
access; for the rest the access itself may raise (getattr at line 212 is
outside any try), which aborts the whole capture. The error value
carries the name of the attribute whose access raised. -/
def classMethods : List (String × Option Bool) → Except String (List String)
  | [] => .ok []
  | a :: rest =>
    if strStartsWith a.1 "_" then classMethods rest
    else
      match a.2 with
      | none => .error a.1
      | some cb =>
        match classMethods rest with
        | .error e => .error e
        | .ok ms => .ok (if cb then a.1 :: ms else ms)

def addFun (r : CapturedArtifact) (f : FunRecord) : CapturedArtifact :=
  ⟨f :: r.functions, r.classes, r.vars, r.user_code⟩

def addClass (r : CapturedArtifact) (c : ClassRecord) : CapturedArtifact :=
  ⟨r.functions, c :: r.classes, r.vars, r.user_code⟩

def addVar (r : CapturedArtifact) (v : VarRecord) : CapturedArtifact :=
  ⟨r.functions, r.classes, v :: r.vars, r.user_code⟩

/-- The body of the capture loop for one binding (app.py lines 191-230):
dunder names are skipped; callable non-types become function records;
type objects become class records, and a raising attribute access in the
class branch aborts the loop; non-callables become variable records
(their try/except makes the variable branch total). -/
def captureBinding (b : Binding) (acc : CapturedArtifact) :
    Except String CapturedArtifact :=
  if strStartsWith b.bname "__" then .ok acc
  else if b.isCallable && !b.isTypeObj then .ok (addFun acc ⟨b.bname⟩)
  else if b.isTypeObj then
    match classMethods b.attrs with
    | .error e => .error e
    | .ok ms => .ok (addClass acc ⟨b.bname, ms⟩)
  else if !b.isCallable then
    .ok (addVar acc ⟨b.bname, b.typeName, varValue b.strRep⟩)
  else .ok acc

/-- The capture loop over the scope's bindings in order, threading the
artifact under construction; the first raising binding aborts it. The
record lists model dictionaries keyed by name, so their order is
immaterial. -/
def captureFold : List Binding → CapturedArtifact → Except String CapturedArtifact
  | [], acc => .ok acc
  | b :: rest, acc =>
    match captureBinding b acc with
    | .error e => .error e
    | .ok acc2 => captureFold rest acc2

/-- capture_execution_results (app.py lines 172-232): fold the capture
loop from the empty artifact carrying the raw source; an uncaught raise
inside the loop aborts capture and propagates. -/
def capture_execution_results (ns : List Binding) (user_code : String) :
    Except String CapturedArtifact :=
  captureFold ns ⟨[], [], [], user_code⟩

/-- Oracle describing what the execution steps of run_user_and_tests
would do: faults of the two exec calls, whether the harness namespace
ends up binding a callable grade, a fault of the grade call, and the
mapping grade returns. -/
structure ExecBehavior where
  userFault : Option String
  testsFault : Option String
  gradeDefined : Bool
  gradeCallable : Bool
  gradeFault : Option String
  gradeReturn : GradeReturn
deriving DecidableEq

/-- Errors a call of run_user_and_tests can surface: validation errors,
faults of the two exec steps or the grade call, the protocol-violation
RuntimeError, and an exception escaping the capture step (uncaught
inside run_user_and_tests, it propagates to the transport layer). -/
inductive EngineError where
  | validationError (e : VError)
  | runtimeFault (msg : String)
  | protocolViolation (msg : String)
  | captureError (msg : String)
deriving DecidableEq

structure GradeResult where
  score : Int
  max_score : Int
  feedback : String
  execution_results : CapturedArtifact
deriving DecidableEq

/-- run_user_and_tests (app.py lines 98-169): validate, exec the user
code, exec the tests, require a callable grade, call it, normalize the
returned mapping and capture the submission scope. Each raise in the
source is an error value here. -/
def run_user_and_tests (p : ValidationPolicy) (nodes : List PyNode)
    (beh : ExecBehavior) (userNs : List Binding) (user_code : String) :
    Except EngineError GradeResult :=
  match validate_source p nodes with
  | .error e => .error (.validationError e)
  | .ok _ =>
    match beh.userFault with
    | some m => .error (.runtimeFault m)
    | none =>
      match beh.testsFault with
      | some m => .error (.runtimeFault m)
      | none =>
        if !beh.gradeDefined || !beh.gradeCallable then
          .error (.protocolViolation "Test script must define grade(user_ns) -> dict.")
        else
          match beh.gradeFault with
          | some m => .error (.runtimeFault m)
          | none =>
            match capture_execution_results userNs user_code with
            | .error m => .error (.captureError m)
            | .ok art =>
              .ok ⟨pyTrunc (beh.gradeReturn.score.getD 0),
                   pyTrunc (beh.gradeReturn.max_score.getD 100),
                   beh.gradeReturn.feedback.getD "",
                   art⟩

/-- The grading triple of a result, without the capture artifact. -/
def resultCore (r : GradeResult) : Int × Int × String :=
  (r.score, r.max_score, r.feedback)

/-! Concrete oracles, node lists, policies and bindings used by witnesses
and counterexamples. -/

def behC7 : ExecBehavior := ⟨none, none, true, true, none, ⟨some (7 / 2 : Rat), none, none⟩⟩

def behC10 : ExecBehavior := ⟨none, none, true, true, none, ⟨none, some ((40 : Int) : Rat), some "ok"⟩⟩

def behC5 : ExecBehavior := ⟨none, none, false, true, none, ⟨none, none, none⟩⟩

def behC1 : ExecBehavior := ⟨none, none, true, true, none, ⟨some ((-5 : Int) : Rat), none, none⟩⟩

def behC1w : ExecBehavior := ⟨none, none, true, true, none, ⟨some ((42 : Int) : Rat), none, none⟩⟩

/-- Walked node list of the source "f = lambda x: x": a Module, an
Assign, the target Name, the Lambda, its arguments, the arg and the body
Name. -/
def lambdaAST : List PyNode :=
  [.otherNode "Module", .otherNode "Assign", .otherNode "Name",
   .lambdaExpr, .otherNode "arguments", .otherNode "arg", .otherNode "Name"]

/-- Policy whose disallowed set contains only the anonymous-function
construct, used by the amended C3. -/
def pLambda : ValidationPolicy := ⟨[.catLambda], []⟩

/-- Walked node list of the source "import os" followed by "global x". -/
def c4Nodes : List PyNode :=
  [.otherNode "Module", .importStmt ["os"], .globalStmt]

/-- The scenario policy of the spec: module time_utils exposing only the
symbol wait. -/
def pTU : ValidationPolicy := ⟨[], [("time_utils", some ["wait"])]⟩

/-- A 100-character string of letters a. -/
def s100 : String := ⟨List.replicate 100 'a'⟩

/-- A binding of s100 to the non-callable name x. -/
def bindX : Binding := ⟨"x", false, false, "str", some s100, []⟩

/-- A binding whose string form cannot be produced. -/
def bindU : Binding := ⟨"u", false, false, "object", none, []⟩

/-- A binding of the value 42 to the name y, used by a witness. -/
def bindY : Binding := ⟨"y", false, false, "int", some "42", []⟩

/-- A class binding with a public attribute boom whose access raises (a
raising descriptor): the class branch of capture then aborts. -/
def bindBad : Binding :=
  ⟨"C", true, true, "type", some "<class C>", [("boom", none)]⟩

/-- An oracle whose grading succeeds with score 80, used to show the
capture abort discarding an already-computed grading result. -/
def behC9 : ExecBehavior :=
  ⟨none, none, true, true, none, ⟨some ((80 : Int) : Rat), none, none⟩⟩

/-! Sanity checks of the embedding on concrete inputs. -/

theorem sanity_pyTrunc_pos : pyTrunc (37 / 10 : Rat) = 3 := by
  norm_num [pyTrunc]; rfl

theorem sanity_pyTrunc_neg : pyTrunc (-37 / 10 : Rat) = -3 := by
  norm_num [pyTrunc]; rfl

theorem sanity_pyTrunc_int : pyTrunc ((-5 : Int) : Rat) = -5 := by decide

theorem sanity_lookup_wildcard :
    lookupImport ALLOWED_IMPORTS "numpy" = some none := by decide

theorem sanity_lookup_missing :
    lookupImport ALLOWED_IMPORTS "os" = none := by decide

theorem sanity_validate_global :
    validate_source appPolicy [.otherNode "Module", .globalStmt] =
      .error (.disallowedFeature .catGlobal) := by decide

/-- C5: after the harness unit executes, a harness namespace that does not
bind grade, or binds it to a non-callable, makes run_user_and_tests yield
the protocol-violation error (the RuntimeError of app.py line 152), and no
GradeResult is produced. -/
theorem grade_entrypoint_missing_protocol_violation
    (p : ValidationPolicy) (nodes : List PyNode) (beh : ExecBehavior)
    (userNs : List Binding) (code : String)
    (hv : validate_source p nodes = .ok ())
    (hu : beh.userFault = none) (ht : beh.testsFault = none)
    (hg : beh.gradeDefined = false ∨ beh.gradeCallable = false) :
    run_user_and_tests p nodes beh userNs code =
      .error (.protocolViolation "Test script must define grade(user_ns) -> dict.")
    ∧ ∀ r, run_user_and_tests p nodes beh userNs code ≠ .ok r := by
  have key : run_user_and_tests p nodes beh userNs code =
      .error (.protocolViolation "Test script must define grade(user_ns) -> dict.") := by
    rcases hg with h | h <;> simp [run_user_and_tests, hv, hu, ht, h]
  refine ⟨key, ?_⟩
  intro r h
  rw [key] at h
  simp at h

/-- Witness for C5 at a concrete oracle whose harness namespace lacks a
grade binding. -/
theorem grade_entrypoint_missing_protocol_violation_witness :
    run_user_and_tests appPolicy [] behC5 [] "" =
      .error (.protocolViolation "Test script must define grade(user_ns) -> dict.")
    ∧ ∀ r, run_user_and_tests appPolicy [] behC5 [] "" ≠ .ok r :=
  grade_entrypoint_missing_protocol_violation appPolicy [] behC5 [] ""
    rfl rfl rfl (Or.inl rfl)

/-- C7: on a successful run the returned score is the truncation of the
mapping's score entry, max_score defaults to 100 when absent, and
feedback defaults to the empty string when absent. -/
theorem normalize_grade_return
    (p : ValidationPolicy) (nodes : List PyNode) (beh : ExecBehavior)
    (userNs : List Binding) (code : String)
    (hv : validate_source p nodes = .ok ())
    (hu : beh.userFault = none) (ht : beh.testsFault = none)
    (hd : beh.gradeDefined = true) (hc : beh.gradeCallable = true)
    (hf : beh.gradeFault = none)
    (art : CapturedArtifact)
    (hcap : capture_execution_results userNs code = .ok art) :
    ∃ r, run_user_and_tests p nodes beh userNs code = .ok r
      ∧ (∀ q, beh.gradeReturn.score = some q → r.score = pyTrunc q)
      ∧ (beh.gradeReturn.max_score = none → r.max_score = 100)
      ∧ (beh.gradeReturn.feedback = none → r.feedback = "") := by
  refine ⟨⟨pyTrunc (beh.gradeReturn.score.getD 0),
          pyTrunc (beh.gradeReturn.max_score.getD 100),
          beh.gradeReturn.feedback.getD "",
          art⟩, ?_, ?_, ?_, ?_⟩
  · simp [run_user_and_tests, hv, hu, ht, hd, hc, hf, hcap]
  · intro q hq; simp [hq]
  · intro h; rw [h]
    show pyTrunc ((none : Option Rat).getD 100) = 100
    decide
  · intro h; rw [h]; rfl

/-- Witness for C7 at a concrete oracle whose grade call returns a
mapping with score 7/2 and no max_score or feedback entry. -/
theorem normalize_grade_return_witness :
    ∃ r, run_user_and_tests appPolicy [] behC7 [] "" = .ok r
      ∧ (∀ q, behC7.gradeReturn.score = some q → r.score = pyTrunc q)
      ∧ (behC7.gradeReturn.max_score = none → r.max_score = 100)
      ∧ (behC7.gradeReturn.feedback = none → r.feedback = "") :=
  normalize_grade_return appPolicy [] behC7 [] "" rfl rfl rfl rfl rfl rfl
    ⟨[], [], [], ""⟩ rfl

/-- C10: a grade mapping with no score entry does not make
run_user_and_tests fail; the returned score is 0. -/
theorem missing_score_defaults_to_zero
    (p : ValidationPolicy) (nodes : List PyNode) (beh : ExecBehavior)
    (userNs : List Binding) (code : String)
    (hv : validate_source p nodes = .ok ())
    (hu : beh.userFault = none) (ht : beh.testsFault = none)
    (hd : beh.gradeDefined = true) (hc : beh.gradeCallable = true)
    (hf : beh.gradeFault = none)
    (hs : beh.gradeReturn.score = none)
    (art : CapturedArtifact)
    (hcap : capture_execution_results userNs code = .ok art) :
    ∃ r, run_user_and_tests p nodes beh userNs code = .ok r ∧ r.score = 0 := by
  refine ⟨⟨pyTrunc (beh.gradeReturn.score.getD 0),
          pyTrunc (beh.gradeReturn.max_score.getD 100),
          beh.gradeReturn.feedback.getD "",
          art⟩, ?_, ?_⟩
  · simp [run_user_and_tests, hv, hu, ht, hd, hc, hf, hcap]
  · rw [hs]
    show pyTrunc ((none : Option Rat).getD 0) = 0
    decide

/-- Witness for C10 at a concrete oracle whose grade call returns a
mapping without a score entry. -/
theorem missing_score_defaults_to_zero_witness :
    ∃ r, run_user_and_tests appPolicy [] behC10 [] "" = .ok r ∧ r.score = 0 :=
  missing_score_defaults_to_zero appPolicy [] behC10 [] ""
    rfl rfl rfl rfl rfl rfl rfl ⟨[], [], [], ""⟩ rfl

/-- C1 counterexample: an accepted submission whose harness returns the
mapping with score -5 yields a normalized result with score -5 < 0; the
engine does not clamp, so 0 <= score <= max_score fails. -/
theorem score_not_clamped_counterexample :
    (run_user_and_tests appPolicy [] behC1 [] "").toOption.map resultCore =
      some (-5, 100, "")
    ∧ ¬ (0 ≤ (-5 : Int)) := by decide

/-- C1 amended: run_user_and_tests does not clamp; the result satisfies
0 <= score <= max_score exactly when the truncation of the harness's
score entry (default 0) already lies between 0 and the truncation of its
max_score entry (default 100). Stated here as the sufficiency direction
together with equality of the fields to the unclamped truncations. -/
theorem score_bounds_iff_harness_bounded
    (p : ValidationPolicy) (nodes : List PyNode) (beh : ExecBehavior)
    (userNs : List Binding) (code : String)
    (hv : validate_source p nodes = .ok ())
    (hu : beh.userFault = none) (ht : beh.testsFault = none)
    (hd : beh.gradeDefined = true) (hc : beh.gradeCallable = true)
    (hf : beh.gradeFault = none)
    (art : CapturedArtifact)
    (hcap : capture_execution_results userNs code = .ok art) :
    ∃ r, run_user_and_tests p nodes beh userNs code = .ok r
      ∧ r.score = pyTrunc (beh.gradeReturn.score.getD 0)
      ∧ r.max_score = pyTrunc (beh.gradeReturn.max_score.getD 100)
      ∧ ((0 ≤ r.score ∧ r.score ≤ r.max_score) ↔
          (0 ≤ pyTrunc (beh.gradeReturn.score.getD 0)
            ∧ pyTrunc (beh.gradeReturn.score.getD 0) ≤
                pyTrunc (beh.gradeReturn.max_score.getD 100))) := by
  refine ⟨⟨pyTrunc (beh.gradeReturn.score.getD 0),
          pyTrunc (beh.gradeReturn.max_score.getD 100),
          beh.gradeReturn.feedback.getD "",
          art⟩, ?_, rfl, rfl, Iff.rfl⟩
  simp [run_user_and_tests, hv, hu, ht, hd, hc, hf, hcap]

/-- Witness for the amended C1 at a concrete oracle returning score 42. -/
theorem score_bounds_iff_harness_bounded_witness :
    ∃ r, run_user_and_tests appPolicy [] behC1w [] "" = .ok r
      ∧ r.score = pyTrunc (behC1w.gradeReturn.score.getD 0)
      ∧ r.max_score = pyTrunc (behC1w.gradeReturn.max_score.getD 100)
      ∧ ((0 ≤ r.score ∧ r.score ≤ r.max_score) ↔
          (0 ≤ pyTrunc (behC1w.gradeReturn.score.getD 0)
            ∧ pyTrunc (behC1w.gradeReturn.score.getD 0) ≤
                pyTrunc (behC1w.gradeReturn.max_score.getD 100))) :=
  score_bounds_iff_harness_bounded appPolicy [] behC1w [] ""
    rfl rfl rfl rfl rfl rfl ⟨[], [], [], ""⟩ rfl

/-- C2 counterexample: the restricted loader permits loading module "os",
which is not in the allow-list, because the fromlist entry "time" is an
allow-listed module name; so the loader does not permit a load only when
the requested module is allow-listed. -/
theorem restricted_import_fromlist_counterexample :
    restricted_import ALLOWED_IMPORTS "os" ["time"] = true
    ∧ lookupImport ALLOWED_IMPORTS "os" = none := by decide

/-- C2 amended: the restricted loader permits a load request exactly when
the requested module is a key of the allow-list, or the fromlist is
nonempty and contains some name that is a key of the allow-list; it never
consults the per-module symbol subsets. -/
theorem restricted_import_permits_iff
    (tbl : List (String × Option (List String))) (nm : String)
    (fl : List String) :
    restricted_import tbl nm fl = true ↔
      ((lookupImport tbl nm).isSome = true
        ∨ ∃ f ∈ fl, (lookupImport tbl f).isSome = true) := by
  cases fl with
  | nil => simp [restricted_import]
  | cons a l => simp [restricted_import, List.any_eq_true]

/-! Helper lemmas about the validator and the engine. -/

theorem checkNode_error_of_disallowed {p : ValidationPolicy} {n : PyNode}
    (h : nodeCat n ∈ p.disallowed) :
    checkNode p n = .error (.disallowedFeature (nodeCat n)) := by
  simp [checkNode, h]

theorem checkNode_eq_checkImports_of_not_disallowed {p : ValidationPolicy}
    {n : PyNode} (h : nodeCat n ∉ p.disallowed) :
    checkNode p n = checkImports p n := by
  simp [checkNode, h]

theorem validate_source_error_of_disallowed_mem (p : ValidationPolicy) :
    ∀ nodes : List PyNode, (∃ n ∈ nodes, nodeCat n ∈ p.disallowed) →
      ∃ e, validate_source p nodes = .error e := by
  intro nodes
  induction nodes with
  | nil => rintro ⟨n, hn, -⟩; cases hn
  | cons a l ih =>
    rintro ⟨n, hn, hd⟩
    cases hc : checkNode p a with
    | error e => exact ⟨e, by simp [validate_source, hc]⟩
    | ok u =>
      have ha : nodeCat a ∉ p.disallowed := by
        intro hmem
        rw [checkNode_error_of_disallowed hmem] at hc
        cases hc
      rcases List.mem_cons.mp hn with rfl | hn2
      · exact absurd hd ha
      · rcases ih ⟨n, hn2, hd⟩ with ⟨e, he⟩
        exact ⟨e, by cases u; simp [validate_source, hc, he]⟩

theorem validate_source_disallowed_first (p : ValidationPolicy) :
    ∀ nodes : List PyNode, (∀ n ∈ nodes, checkImports p n = .ok ()) →
      (∃ n ∈ nodes, nodeCat n ∈ p.disallowed) →
      ∃ c ∈ p.disallowed,
        validate_source p nodes = .error (.disallowedFeature c) := by
  intro nodes
  induction nodes with
  | nil => rintro - ⟨n, hn, -⟩; cases hn
  | cons a l ih =>
    rintro himp ⟨n, hn, hd⟩
    by_cases hmem : nodeCat a ∈ p.disallowed
    · exact ⟨nodeCat a, hmem,
        by simp [validate_source, checkNode_error_of_disallowed hmem]⟩
    · have hca : checkNode p a = .ok () := by
        rw [checkNode_eq_checkImports_of_not_disallowed hmem]
        exact himp a (List.mem_cons_self a l)
      have himpl : ∀ n ∈ l, checkImports p n = .ok () := by
        intro m hm; exact himp m (List.mem_cons_of_mem a hm)
      have hwit : ∃ n ∈ l, nodeCat n ∈ p.disallowed := by
        rcases List.mem_cons.mp hn with rfl | hn2
        · exact absurd hd hmem
        · exact ⟨n, hn2, hd⟩
      rcases ih himpl hwit with ⟨c, hc, he⟩
      exact ⟨c, hc, by simp [validate_source, hca, he]⟩

theorem run_of_validate_error (p : ValidationPolicy) (nodes : List PyNode)
    (beh : ExecBehavior) (userNs : List Binding) (code : String) (e : VError)
    (h : validate_source p nodes = .error e) :
    run_user_and_tests p nodes beh userNs code =
      .error (.validationError e) := by
  simp [run_user_and_tests, h]

/-- C3 counterexample: under the application's policy the submission
"f = lambda x: x" passes validate_source, because ast.Lambda is not in
DISALLOWED_NODES (it was removed to allow functional programming,
issue 31); so the submission is not rejected and proceeds to
execution. -/
theorem lambda_accepted_counterexample :
    validate_source appPolicy lambdaAST = .ok ()
    ∧ PyNode.lambdaExpr ∈ lambdaAST
    ∧ NodeCat.catLambda ∉ appPolicy.disallowed := by decide

/-- C3 amended: only under a policy whose disallowed set contains the
anonymous-function construct (and does not disallow the surrounding
ordinary nodes) is the lambda submission rejected, with the
disallowed-feature error naming the construct, and never executed; the
application's own policy admits it. -/
theorem lambda_rejected_under_lambda_policy
    (p : ValidationPolicy) (beh : ExecBehavior) (userNs : List Binding)
    (code : String)
    (hl : NodeCat.catLambda ∈ p.disallowed)
    (ho : NodeCat.catOther ∉ p.disallowed) :
    validate_source p lambdaAST = .error (.disallowedFeature .catLambda)
    ∧ run_user_and_tests p lambdaAST beh userNs code =
        .error (.validationError (.disallowedFeature .catLambda)) := by
  have hv : validate_source p lambdaAST =
      .error (.disallowedFeature .catLambda) := by
    simp [lambdaAST, validate_source, checkNode, checkImports, nodeCat, hl, ho]
  exact ⟨hv, run_of_validate_error p lambdaAST beh userNs code _ hv⟩

/-- Witness for the amended C3 at the lambda-disallowing policy. -/
theorem lambda_rejected_under_lambda_policy_witness :
    validate_source pLambda lambdaAST = .error (.disallowedFeature .catLambda)
    ∧ run_user_and_tests pLambda lambdaAST behC5 [] "f = lambda x: x" =
        .error (.validationError (.disallowedFeature .catLambda)) :=
  lambda_rejected_under_lambda_policy pLambda behC5 [] "f = lambda x: x"
    (by decide) (by decide)

/-- C4 counterexample: this source contains a node of a disallowed
category (ast.Global), yet validation fails with the import-not-allowed
error for "os", not with a disallowed-feature error, because the import
node precedes the Global node in the walk. -/
theorem disallowed_node_error_kind_counterexample :
    PyNode.globalStmt ∈ c4Nodes
    ∧ nodeCat .globalStmt ∈ appPolicy.disallowed
    ∧ validate_source appPolicy c4Nodes = .error (.importNotAllowed (some "os"))
    ∧ ∀ c, validate_source appPolicy c4Nodes ≠
        .error (.disallowedFeature c) := by decide

/-- C4 amended: a source containing a node of a disallowed category always
fails validation, and run_user_and_tests then returns the validation error
without consulting the execution oracle (no execution side effect); the
error is a disallowed-feature error naming a disallowed construct whenever
no node fails the import checks. -/
theorem disallowed_node_validation_fails
    (p : ValidationPolicy) (nodes : List PyNode)
    (h : ∃ n ∈ nodes, nodeCat n ∈ p.disallowed) :
    (∃ e, validate_source p nodes = .error e)
    ∧ (∀ beh userNs code e, validate_source p nodes = .error e →
        run_user_and_tests p nodes beh userNs code =
          .error (.validationError e))
    ∧ ((∀ n ∈ nodes, checkImports p n = .ok ()) →
        ∃ c ∈ p.disallowed,
          validate_source p nodes = .error (.disallowedFeature c)) :=
  ⟨validate_source_error_of_disallowed_mem p nodes h,
   fun beh userNs code e he => run_of_validate_error p nodes beh userNs code e he,
   fun himp => validate_source_disallowed_first p nodes himp h⟩

/-- Witness for the amended C4 at a source consisting of one global
statement under the application policy. -/
theorem disallowed_node_validation_fails_witness :
    (∃ e, validate_source appPolicy [.globalStmt] = .error e)
    ∧ (∀ beh userNs code e,
        validate_source appPolicy [.globalStmt] = .error e →
        run_user_and_tests appPolicy [.globalStmt] beh userNs code =
          .error (.validationError e))
    ∧ ((∀ n ∈ [PyNode.globalStmt], checkImports appPolicy n = .ok ()) →
        ∃ c ∈ appPolicy.disallowed,
          validate_source appPolicy [.globalStmt] =
            .error (.disallowedFeature c)) :=
  disallowed_node_validation_fails appPolicy [.globalStmt]
    ⟨.globalStmt, by decide, by decide⟩

theorem checkImportNames_error_of_unknown (p : ValidationPolicy) :
    ∀ names : List String,
      (∃ m ∈ names, lookupImport p.allowedImports m = none) →
      ∃ m2, lookupImport p.allowedImports m2 = none ∧ m2 ∈ names ∧
        checkImportNames p names = .error (.importNotAllowed (some m2)) := by
  intro names
  induction names with
  | nil => rintro ⟨m, hm, -⟩; cases hm
  | cons a l ih =>
    rintro ⟨m, hm, hl⟩
    by_cases ha : (lookupImport p.allowedImports a).isSome
    · have hma : m ≠ a := by
        rintro rfl; rw [hl] at ha; cases ha
      have hm2 : m ∈ l := by
        rcases List.mem_cons.mp hm with rfl | h2
        · exact absurd rfl hma
        · exact h2
      rcases ih ⟨m, hm2, hl⟩ with ⟨m2, h1, h2, h3⟩
      exact ⟨m2, h1, List.mem_cons_of_mem a h2, by simp [checkImportNames, ha, h3]⟩
    · have hnone : lookupImport p.allowedImports a = none := by
        cases hx : lookupImport p.allowedImports a with
        | none => rfl
        | some v => rw [hx] at ha; simp at ha
      exact ⟨a, hnone, List.mem_cons_self a l, by simp [checkImportNames, hnone]⟩

theorem checkSymbols_ok_iff (m : String) (allowedNames : List String) :
    ∀ names : List String,
      (checkSymbols m allowedNames names = .ok () ↔
        ∀ s ∈ names, s ∈ allowedNames) := by
  intro names
  induction names with
  | nil => simp [checkSymbols]
  | cons a l ih =>
    by_cases ha : a ∈ allowedNames
    · simpa [checkSymbols, ha] using ih
    · simp [checkSymbols, ha]

theorem checkSymbols_error_of_foreign (m : String) (allowedNames : List String) :
    ∀ names : List String, (∃ s ∈ names, s ∉ allowedNames) →
      ∃ s ∈ names, s ∉ allowedNames ∧
        checkSymbols m allowedNames names = .error (.symbolNotAllowed s m) := by
  intro names
  induction names with
  | nil => rintro ⟨s, hs, -⟩; cases hs
  | cons a l ih =>
    rintro ⟨s, hs, hout⟩
    by_cases ha : a ∈ allowedNames
    · have hsl : s ∈ l := by
        rcases List.mem_cons.mp hs with rfl | h2
        · exact absurd ha hout
        · exact h2
      rcases ih ⟨s, hsl, hout⟩ with ⟨s2, h1, h2, h3⟩
      exact ⟨s2, List.mem_cons_of_mem a h1, h2, by simp [checkSymbols, ha, h3]⟩
    · exact ⟨a, List.mem_cons_self a l, ha, by simp [checkSymbols, ha]⟩

/-- C6: characterization of the validator's import checks, for any policy
that does not disallow the import constructs themselves. A plain import
of a module that is not an allow-list key fails with the
import-not-allowed error; a from-import of an unknown module fails the
same way; a module mapped to the wildcard admits every symbol; a module
with a restricted symbol subset validates exactly when every requested
symbol is in the subset, and otherwise fails with a symbol-not-allowed
error naming an offending symbol. -/
theorem import_validation_characterization
    (p : ValidationPolicy)
    (hI : NodeCat.catImport ∉ p.disallowed)
    (hF : NodeCat.catImportFrom ∉ p.disallowed) :
    (∀ names m, m ∈ names → lookupImport p.allowedImports m = none →
      ∃ m2, lookupImport p.allowedImports m2 = none ∧ m2 ∈ names ∧
        checkNode p (.importStmt names) = .error (.importNotAllowed (some m2)))
    ∧ (∀ m names, lookupImport p.allowedImports m = none →
        checkNode p (.importFromStmt (some m) names) =
          .error (.importNotAllowed (some m)))
    ∧ (∀ m names, lookupImport p.allowedImports m = some none →
        checkNode p (.importFromStmt (some m) names) = .ok ())
    ∧ (∀ m allowedNames names,
        lookupImport p.allowedImports m = some (some allowedNames) →
        ((checkNode p (.importFromStmt (some m) names) = .ok () ↔
            ∀ s ∈ names, s ∈ allowedNames)
          ∧ ((∃ s ∈ names, s ∉ allowedNames) →
              ∃ s ∈ names, s ∉ allowedNames ∧
                checkNode p (.importFromStmt (some m) names) =
                  .error (.symbolNotAllowed s m)))) := by
  have hcI : ∀ names, checkNode p (.importStmt names) =
      checkImports p (.importStmt names) :=
    fun names => checkNode_eq_checkImports_of_not_disallowed (n := .importStmt names) hI
  have hcF : ∀ mo names, checkNode p (.importFromStmt mo names) =
      checkImports p (.importFromStmt mo names) :=
    fun mo names => checkNode_eq_checkImports_of_not_disallowed
      (n := .importFromStmt mo names) hF
  refine ⟨?_, ?_, ?_, ?_⟩
  · intro names m hm hnone
    rcases checkImportNames_error_of_unknown p names ⟨m, hm, hnone⟩ with
      ⟨m2, h1, h2, h3⟩
    exact ⟨m2, h1, h2, by rw [hcI]; simpa [checkImports] using h3⟩
  · intro m names hnone
    rw [hcF]; simp [checkImports, hnone]
  · intro m names hwild
    rw [hcF]; simp [checkImports, hwild]
  · intro m allowedNames names hsub
    constructor
    · rw [hcF]; simp [checkImports, hsub]
      exact checkSymbols_ok_iff m allowedNames names
    · intro hout
      rcases checkSymbols_error_of_foreign m allowedNames names hout with
        ⟨s, h1, h2, h3⟩
      exact ⟨s, h1, h2, by rw [hcF]; simpa [checkImports, hsub] using h3⟩

/-- Witness for C6 at the spec's scenario policy: importing wait from
time_utils validates; importing wait and parse_duration fails with the
symbol-not-allowed error. -/
theorem import_validation_characterization_witness :
    checkNode pTU (.importFromStmt (some "time_utils") ["wait"]) = .ok ()
    ∧ ∃ s ∈ ["wait", "parse_duration"], s ∉ ["wait"] ∧
        checkNode pTU
            (.importFromStmt (some "time_utils") ["wait", "parse_duration"]) =
          .error (.symbolNotAllowed s "time_utils") := by
  have h := import_validation_characterization pTU (by decide) (by decide)
  constructor
  · exact ((h.2.2.2 "time_utils" ["wait"] ["wait"] (by decide)).1).mpr (by decide)
  · exact (h.2.2.2 "time_utils" ["wait"] ["wait", "parse_duration"]
      (by decide)).2 (by decide)

/-! Helper lemmas about the result capturer. -/

theorem captureBinding_vars_subset {b : Binding} {acc acc2 : CapturedArtifact}
    (h : captureBinding b acc = .ok acc2) {r : VarRecord} (hr : r ∈ acc.vars) :
    r ∈ acc2.vars := by
  unfold captureBinding at h
  split_ifs at h
  · injection h with h5; subst h5; exact hr
  · injection h with h5; subst h5; exact hr
  · cases hm : classMethods b.attrs with
    | error e => rw [hm] at h; cases h
    | ok ms => rw [hm] at h; injection h with h5; subst h5; exact hr
  · injection h with h5; subst h5
    exact List.mem_cons_of_mem _ hr
  · injection h with h5; subst h5; exact hr

theorem captureBinding_var (b : Binding) (acc : CapturedArtifact)
    (hd : strStartsWith b.bname "__" = false)
    (hc : b.isCallable = false) (ht : b.isTypeObj = false) :
    captureBinding b acc =
      .ok (addVar acc ⟨b.bname, b.typeName, varValue b.strRep⟩) := by
  simp [captureBinding, hd, hc, ht]

theorem captureFold_vars_mono :
    ∀ (ns : List Binding) (acc art : CapturedArtifact),
      captureFold ns acc = .ok art → ∀ r ∈ acc.vars, r ∈ art.vars := by
  intro ns
  induction ns with
  | nil =>
    intro acc art h r hr
    injection h with h5
    subst h5
    exact hr
  | cons b rest ih =>
    intro acc art h r hr
    unfold captureFold at h
    cases hc : captureBinding b acc with
    | error e => rw [hc] at h; cases h
    | ok acc2 =>
      rw [hc] at h
      exact ih acc2 art h r (captureBinding_vars_subset hc hr)

theorem var_record_mem :
    ∀ (ns : List Binding) (acc art : CapturedArtifact) (b : Binding),
      captureFold ns acc = .ok art → b ∈ ns →
      strStartsWith b.bname "__" = false → b.isCallable = false →
      b.isTypeObj = false →
      (⟨b.bname, b.typeName, varValue b.strRep⟩ : VarRecord) ∈ art.vars := by
  intro ns
  induction ns with
  | nil => intro acc art b h hb; cases hb
  | cons a rest ih =>
    intro acc art b h hb hd hcall ht2
    unfold captureFold at h
    cases hc : captureBinding a acc with
    | error e => rw [hc] at h; cases h
    | ok acc2 =>
      rw [hc] at h
      rcases List.mem_cons.mp hb with rfl | h2
      · have h5 : (Except.ok
              (addVar acc ⟨b.bname, b.typeName, varValue b.strRep⟩) :
            Except String CapturedArtifact) = Except.ok acc2 :=
          (captureBinding_var b acc hd hcall ht2).symm.trans hc
        injection h5 with h6
        rw [← h6] at h
        exact captureFold_vars_mono rest _ art h _ (List.mem_cons_self ..)
      · exact ih acc2 art b h h2 hd hcall ht2

theorem run_core_independent (p : ValidationPolicy) (nodes : List PyNode)
    (beh : ExecBehavior) (uc : String) (ns1 ns2 : List Binding)
    (a1 a2 : CapturedArtifact)
    (h1 : capture_execution_results ns1 uc = .ok a1)
    (h2 : capture_execution_results ns2 uc = .ok a2) :
    (run_user_and_tests p nodes beh ns1 uc).map resultCore =
      (run_user_and_tests p nodes beh ns2 uc).map resultCore := by
  unfold run_user_and_tests
  cases validate_source p nodes with
  | error e => rfl
  | ok u =>
    cases beh.userFault with
    | some m => rfl
    | none =>
      cases beh.testsFault with
      | some m => rfl
      | none =>
        by_cases hg : (!beh.gradeDefined || !beh.gradeCallable) = true
        · rw [if_pos hg, if_pos hg]
        · rw [if_neg hg, if_neg hg]
          cases beh.gradeFault with
          | some m => rfl
          | none => rw [h1, h2]; rfl

/-- C8 counterexample: a non-callable binding whose string form is
exactly 100 characters long (not longer than 100) is recorded truncated
to its first 97 characters plus the ellipsis, not as the full string,
because the source truncates whenever the length is not strictly below
100. -/
theorem variable_value_boundary_counterexample :
    s100.length = 100
    ∧ capture_execution_results [bindX] "" =
        .ok ⟨[], [], [⟨"x", "str", (⟨List.replicate 97 'a'⟩ : String) ++ "..."⟩], ""⟩
    ∧ (⟨List.replicate 97 'a'⟩ : String) ++ "..." ≠ s100 := by decide

/-- C8 amended: a captured non-callable binding is recorded with its
runtime type name, and with the full string form exactly when that form
is strictly shorter than 100 characters; at 100 characters or more the
recorded value is the first 97 characters followed by the ellipsis
marker. -/
theorem variable_value_truncation
    (ns : List Binding) (code : String) (b : Binding) (s : String)
    (hb : b ∈ ns) (hd : strStartsWith b.bname "__" = false)
    (hc : b.isCallable = false) (ht : b.isTypeObj = false)
    (hr : b.strRep = some s)
    (art : CapturedArtifact)
    (hcap : capture_execution_results ns code = .ok art) :
    ∃ v, (⟨b.bname, b.typeName, v⟩ : VarRecord) ∈ art.vars
      ∧ (s.length < 100 → v = s)
      ∧ (100 ≤ s.length → v = pySlice s 97 ++ "...") := by
  refine ⟨varValue b.strRep,
    var_record_mem ns ⟨[], [], [], code⟩ art b hcap hb hd hc ht, ?_, ?_⟩
  · intro h; simp [varValue, hr, h]
  · intro h
    have hnot : ¬ s.length < 100 := not_lt.mpr h
    simp [varValue, hr, hnot]

/-- Witness for the amended C8 at a binding whose string form is "42". -/
theorem variable_value_truncation_witness :
    ∃ v, (⟨"y", "int", v⟩ : VarRecord) ∈
        (⟨[], [], [⟨"y", "int", "42"⟩], "y = 42"⟩ : CapturedArtifact).vars
      ∧ ("42".length < 100 → v = "42")
      ∧ (100 ≤ "42".length → v = pySlice "42" 97 ++ "...") :=
  variable_value_truncation [bindY] "y = 42" bindY "42"
    (List.mem_singleton.mpr rfl) rfl rfl rfl rfl
    ⟨[], [], [⟨"y", "int", "42"⟩], "y = 42"⟩ rfl

/-- C9 counterexample: capture is not total. A class binding with a
public attribute whose access raises (the getattr of app.py line 212 is
outside any try) aborts capture_execution_results, and
run_user_and_tests then surfaces that error instead of a GradeResult,
discarding a grading that had already succeeded: the same oracle with a
benign scope returns score 80. -/
theorem capture_abort_counterexample :
    capture_execution_results [bindBad] "" = .error "boom"
    ∧ run_user_and_tests appPolicy [] behC9 [bindBad] "" =
        .error (.captureError "boom")
    ∧ run_user_and_tests appPolicy [] behC9 [] "" =
        .ok ⟨80, 100, "", ⟨[], [], [], ""⟩⟩
    ∧ (∀ r, run_user_and_tests appPolicy [] behC9 [bindBad] "" ≠ .ok r) := by
  refine ⟨by decide, by decide, by decide, ?_⟩
  intro r h
  have hx : run_user_and_tests appPolicy [] behC9 [bindBad] "" =
      .error (.captureError "boom") := by decide
  rw [hx] at h
  simp at h

/-- C9 amended: a failure while producing a variable's string form is
caught locally: such a binding turns into the fixed unable-to-serialize
record without aborting the loop, and is present in any successfully
returned artifact; and the grading triple of run_user_and_tests (score,
max_score, feedback) is the same across scopes on which capture
succeeds. Capture as a whole is not total: a raising class-attribute
access aborts it and discards the grading result (see the
counterexample), so totality holds only of the variable branch. -/
theorem serialization_fallback_recovered
    (ns : List Binding) (code : String) (b : Binding)
    (hb : b ∈ ns) (hd : strStartsWith b.bname "__" = false)
    (hc : b.isCallable = false) (ht : b.isTypeObj = false)
    (hr : b.strRep = none) :
    (∀ acc, captureBinding b acc =
        .ok (addVar acc ⟨b.bname, b.typeName, "<unable to serialize>"⟩))
    ∧ (∀ art, capture_execution_results ns code = .ok art →
        (⟨b.bname, b.typeName, "<unable to serialize>"⟩ : VarRecord) ∈ art.vars)
    ∧ (∀ (p : ValidationPolicy) (nodes : List PyNode) (beh : ExecBehavior)
        (ns2 : List Binding) (uc : String) (a1 a2 : CapturedArtifact),
        capture_execution_results ns uc = .ok a1 →
        capture_execution_results ns2 uc = .ok a2 →
        (run_user_and_tests p nodes beh ns uc).map resultCore =
          (run_user_and_tests p nodes beh ns2 uc).map resultCore) := by
  refine ⟨?_, ?_, ?_⟩
  · intro acc
    have hv := captureBinding_var b acc hd hc ht
    rw [hr] at hv
    exact hv
  · intro art hcap
    have hmem := var_record_mem ns ⟨[], [], [], code⟩ art b hcap hb hd hc ht
    rw [hr] at hmem
    exact hmem
  · intro p nodes beh ns2 uc a1 a2 h1 h2
    exact run_core_independent p nodes beh uc ns ns2 a1 a2 h1 h2

/-- Witness for the amended C9 at a scope holding one unserializable
binding. -/
theorem serialization_fallback_recovered_witness :
    (∀ acc, captureBinding bindU acc =
        .ok (addVar acc ⟨"u", "object", "<unable to serialize>"⟩))
    ∧ (∀ art, capture_execution_results [bindU] "" = .ok art →
        (⟨"u", "object", "<unable to serialize>"⟩ : VarRecord) ∈ art.vars)
    ∧ (∀ (p : ValidationPolicy) (nodes : List PyNode) (beh : ExecBehavior)
        (ns2 : List Binding) (uc : String) (a1 a2 : CapturedArtifact),
        capture_execution_results [bindU] uc = .ok a1 →
        capture_execution_results ns2 uc = .ok a2 →
        (run_user_and_tests p nodes beh [bindU] uc).map resultCore =
          (run_user_and_tests p nodes beh ns2 uc).map resultCore) :=
  serialization_fallback_recovered [bindU] "" bindU
    (List.mem_singleton.mpr rfl) rfl rfl rfl rfl

end PkgBuilder
